import Mathlib

/-!
Verification of the resilient endpoint monitor (api_updater.py).

This development shallowly embeds the components of the
AdvancedAPIEndpointUpdater module: the RateLimiter, the CircuitBreaker,
the strict payload validator, the atomic file write-back, the side
probe and the endpoint tester.  Wall-clock instants (time.time(),
datetime.now()) are modelled as rationals; JSON documents as an
inductive; MD5 as an injective tagging function (only its functionality
is used, never collision behaviour); file contents at the granularity
of complete documents or strings as noted at each definition.
-/

namespace Monitor

/-- Json models a decoded Python JSON value (the result of json.loads /
response.json()): null, booleans, numbers, strings, arrays and objects.
Object fields are kept as an ordered association list, matching dict
insertion order. -/
inductive Json where
  | null : Json
  | bool (b : Bool) : Json
  | num (q : ℚ) : Json
  | str (s : String) : Json
  | arr (xs : List Json) : Json
  | obj (kvs : List (String × Json)) : Json

/-- alookup models Python dict lookup `d.get(k)` over an association
list: the value at the first matching key, if any. -/
def alookup {α : Type} : List (String × α) → String → Option α
  | [], _ => none
  | (k', v) :: rest, k => if k' = k then some v else alookup rest k

/-- aset models Python dict assignment `d[k] = v` over an association
list: replace the first binding of `k`, or append a new one. -/
def aset {α : Type} : List (String × α) → String → α → List (String × α)
  | [], k, v => [(k, v)]
  | (k', v') :: rest, k, v =>
      if k' = k then (k', v) :: rest else (k', v') :: aset rest k v

/-- truthy models Python truthiness (`if x:`) of a JSON value: None,
False, 0, empty string/list/dict are falsy, everything else truthy. -/
def truthy : Json → Bool
  | .null => false
  | .bool b => b
  | .num q => q != 0
  | .str s => s ≠ ""
  | .arr xs => !xs.isEmpty
  | .obj kvs => !kvs.isEmpty

/-- type_name models Python `type(x)` rendered into an f-string; only
used inside diagnostic message text, so the exact spelling is a model. -/
def type_name : Json → String
  | .null => "NoneType"
  | .bool _ => "bool"
  | .num _ => "number"
  | .str _ => "str"
  | .arr _ => "list"
  | .obj _ => "dict"

/-- md5 models hashlib.md5(s).hexdigest(). The development only relies
on md5 being a fixed function of its input (equal inputs give equal
digests); it is modelled as an injective tagging of the input. -/
def md5 (s : String) : String := "md5:" ++ s

/-- opt_repr models how Python renders an optional header value inside
an f-string: None prints as the text "None", a string prints as itself. -/
def opt_repr : Option String → String
  | none => "None"
  | some s => s

/-- isoformat models datetime.fromtimestamp/now().isoformat() on the
rational time scale: a canonical string rendering of the instant. -/
def isoformat (t : ℚ) : String := toString t

/-! ## RateLimiter (api_updater.py lines 106-134)

The limiter state is the list `self.requests` of admission timestamps.
time.time() instants are the rationals. -/

/-- prune models the list comprehension in can_proceed that discards
request records older than the time window: it keeps exactly the
timestamps `t` with `now - t < time_window`. -/
def prune (time_window now : ℚ) (requests : List ℚ) : List ℚ :=
  requests.filter (fun t => decide (now - t < time_window))

/-- can_proceed models RateLimiter.can_proceed at instant `now`: prune
expired records, then admit (appending the current timestamp) iff the
remaining count is below max_requests. Returns the decision and the new
request list. -/
def can_proceed (max_requests : ℕ) (time_window : ℚ) (now : ℚ)
    (requests : List ℚ) : Bool × List ℚ :=
  let p := prune time_window now requests
  if p.length < max_requests then (true, p ++ [now]) else (false, p)

/-- run_limiter folds a sequence of can_proceed calls at the given
instants over a starting request list, returning the list of instants
of the calls that were admitted (returned True) together with the final
request list. -/
def run_limiter (max_requests : ℕ) (time_window : ℚ) :
    List ℚ → List ℚ → List ℚ × List ℚ
  | requests, [] => ([], requests)
  | requests, t :: ts =>
      let r := can_proceed max_requests time_window t requests
      let rest := run_limiter max_requests time_window r.2 ts
      ((if r.1 then [t] else []) ++ rest.1, rest.2)

/-- in_window decides membership of an admission instant in the
trailing time_window-second interval ending at `T`, i.e. the half-open
interval from `T - time_window` (exclusive) to `T` (inclusive). -/
def in_window (time_window T x : ℚ) : Bool :=
  decide (T - x < time_window) && decide (x ≤ T)

/-! ## CircuitBreaker (api_updater.py lines 33-187) -/

/-- CircuitState mirrors the CircuitState enum. -/
inductive CircuitState where
  | CLOSED : CircuitState
  | OPEN : CircuitState
  | HALF_OPEN : CircuitState
deriving DecidableEq

/-- CircuitBreakerStats mirrors the dataclass of the same name;
datetime instants are rationals. -/
structure CircuitBreakerStats where
  state : CircuitState
  failure_count : ℕ := 0
  success_count : ℕ := 0
  last_failure_time : Option ℚ := none
  last_success_time : Option ℚ := none
  total_requests : ℕ := 0
deriving DecidableEq

/-- BreakerConfig holds the three CircuitBreaker constructor
parameters. recovery_timeout is in seconds on the rational time scale. -/
structure BreakerConfig where
  failure_threshold : ℕ
  recovery_timeout : ℚ
  success_threshold : ℕ

/-- init_stats is the stats value of a freshly constructed breaker:
CircuitBreakerStats(state=CircuitState.CLOSED). -/
def init_stats : CircuitBreakerStats := { state := .CLOSED }

/-- can_execute models CircuitBreaker.can_execute at instant `now`:
Closed and HalfOpen admit; Open admits only when a last failure is
recorded and strictly more than recovery_timeout seconds have elapsed
since it, in which case the state becomes HalfOpen with success_count
reset to 0. Returns the decision and the updated stats. -/
def can_execute (cfg : BreakerConfig) (st : CircuitBreakerStats)
    (now : ℚ) : Bool × CircuitBreakerStats :=
  match st.state with
  | .CLOSED => (true, st)
  | .OPEN =>
      match st.last_failure_time with
      | some lft =>
          if cfg.recovery_timeout < now - lft then
            (true, { st with state := .HALF_OPEN, success_count := 0 })
          else (false, st)
      | none => (false, st)
  | .HALF_OPEN => (true, st)

/-- record_success models CircuitBreaker.record_success at instant
`now`: bump success_count/total_requests/last_success_time, then close
the breaker (resetting failure_count) when HalfOpen and the success
threshold is reached. -/
def record_success (cfg : BreakerConfig) (st : CircuitBreakerStats)
    (now : ℚ) : CircuitBreakerStats :=
  let st' := { st with success_count := st.success_count + 1,
                       total_requests := st.total_requests + 1,
                       last_success_time := some now }
  if st'.state = .HALF_OPEN ∧ cfg.success_threshold ≤ st'.success_count
  then { st' with state := .CLOSED, failure_count := 0 }
  else st'

/-- record_failure models CircuitBreaker.record_failure at instant
`now`: bump failure_count/total_requests/last_failure_time, then open
the breaker when in CLOSED or HALF_OPEN and the failure threshold is
reached. -/
def record_failure (cfg : BreakerConfig) (st : CircuitBreakerStats)
    (now : ℚ) : CircuitBreakerStats :=
  let st' := { st with failure_count := st.failure_count + 1,
                       total_requests := st.total_requests + 1,
                       last_failure_time := some now }
  if (st'.state = .CLOSED ∨ st'.state = .HALF_OPEN) ∧
      cfg.failure_threshold ≤ st'.failure_count
  then { st' with state := .OPEN }
  else st'

/-- BreakerOp is one call in an arbitrary client interaction sequence
with the breaker, each carrying the instant at which it is made. -/
inductive BreakerOp where
  | canExec (t : ℚ) : BreakerOp
  | recSucc (t : ℚ) : BreakerOp
  | recFail (t : ℚ) : BreakerOp

/-- apply_op runs one breaker call, discarding can_execute's boolean. -/
def apply_op (cfg : BreakerConfig) (st : CircuitBreakerStats) :
    BreakerOp → CircuitBreakerStats
  | .canExec t => (can_execute cfg st t).2
  | .recSucc t => record_success cfg st t
  | .recFail t => record_failure cfg st t

/-- run_ops folds an arbitrary call sequence over a breaker state. -/
def run_ops (cfg : BreakerConfig) (st : CircuitBreakerStats)
    (ops : List BreakerOp) : CircuitBreakerStats :=
  ops.foldl (apply_op cfg) st

/-! ## Data model: TestResult, endpoint-state cache, configuration

The test_endpoint result dict is modelled as a structure; keys the
source adds only on some branches are Option fields (none = key
absent). -/

/-- TestResult mirrors the result dict built by test_endpoint. -/
structure TestResult where
  endpoint : String
  status_code : ℕ
  available : Bool
  test_time : ℚ
  error : Option String := none
  response_size : Option ℕ := none
  content_type : Option String := none
  response_time : Option ℚ := none
  from_cache : Option Bool := none
  probe_has_changes : Option Bool := none
  probe_content_hash : Option String := none
  data_structure : Option String := none
  contains_soccer : Option Bool := none
  soccer_matches : Option ℕ := none
  total_items : Option ℕ := none
  validation_passed : Option Bool := none
  validation_errors : Option (List String) := none
  validation_warnings : Option (List String) := none
  content_hash : Option String := none
deriving DecidableEq

/-- CacheEntry mirrors one per-URL dict stored in
self.endpoint_cache; all keys are created on demand, hence Options. -/
structure CacheEntry where
  content_hash : Option String := none
  last_probe : Option String := none
  etag : Option String := none
  last_modified : Option String := none
  last_fetch : Option String := none
  test_result : Option TestResult := none
deriving DecidableEq

/-- UpdaterState collects the mutable fields of
AdvancedAPIEndpointUpdater that the embedded operations read or write:
the per-endpoint cache dict, the content_hashes dict, the shared
circuit breaker stats and the rate limiter request list. -/
structure UpdaterState where
  endpoint_cache : List (String × CacheEntry) := []
  content_hashes : List (String × String) := []
  breaker : CircuitBreakerStats := init_stats
  limiter : List ℚ := []

/-- Config mirrors the API configuration JSON document
(load_current_config / save_config). -/
structure Config where
  endpoints : List String
  last_updated : Option String
  discovery_method : String
  notes : String
  version : String
  features : List String
deriving DecidableEq

/-- default_config is the fallback document returned by
load_current_config when no file exists or it fails to parse. -/
def default_config : Config :=
  { endpoints := []
    last_updated := none
    discovery_method := "manual"
    notes := "默认配置"
    version := "2.0"
    features := ["side_probe", "conditional_get", "strict_validation",
                 "circuit_breaker", "atomic_writeback"] }

/-- CacheDoc mirrors the cache_data document that _save_cache intends
to persist to the separate cache file. -/
structure CacheDoc where
  endpoint_cache : List (String × CacheEntry)
  content_hashes : List (String × String)
  last_updated : String
deriving DecidableEq

/-! ## Persistence: _atomic_write, save_config, load_current_config,
_save_cache (api_updater.py lines 239-330)

File contents are modelled at the granularity of complete parsed JSON
documents: json.dumps on save and json.load on load are mutually
inverse on the well-formed documents considered here, so serialization
is the identity on the document and a file is `none` when absent.
Failure of an individual I/O step is injected through a fault
parameter, since the file system itself is outside the program. -/

/-- WriteFault names the step of the _atomic_write body that fails, if
any: creating the temporary file, writing/flushing it, or renaming it
onto the target. -/
inductive WriteFault where
  | ok : WriteFault
  | temp_create_fail : WriteFault
  | write_fail : WriteFault
  | rename_fail : WriteFault
deriving DecidableEq

/-- FileState is one target file: its current content (none = absent)
and whether an orphan temporary file from the current call remains in
its directory. -/
structure FileState (α : Type) where
  content : Option α
  temp_exists : Bool
deriving DecidableEq

/-- PendingWrite models the value returned by calling the
contextmanager-decorated _atomic_write(file_path, content): a
generator-backed context manager capturing its arguments. None of the
wrapped body runs at construction time; the body runs only when the
manager is entered by a with-statement. -/
structure PendingWrite (α : Type) where
  fault : WriteFault
  content : α

/-- atomic_write_enter models entering (`with ... :`) the _atomic_write
context manager: the body creates a temporary file in the target's
directory, writes and flushes the content, then atomically renames the
temporary file onto the target. On a fault the except-clause removes
any temporary file that was created and re-raises (returned here as
false); the target is only ever touched by the atomic rename. -/
def atomic_write_enter {α : Type} (cm : PendingWrite α) (f : FileState α) :
    Bool × FileState α :=
  match cm.fault with
  | .ok => (true, { content := some cm.content, temp_exists := false })
  | .temp_create_fail => (false, f)
  | .write_fail => (false, { f with temp_exists := false })
  | .rename_fail => (false, { f with temp_exists := false })

/-- SaveFault names the step of save_config that fails, if any:
serialization (json.dumps), or one of the _atomic_write steps. -/
inductive SaveFault where
  | serialize_fail : SaveFault
  | write (wf : WriteFault) : SaveFault
deriving DecidableEq

/-- save_config models AdvancedAPIEndpointUpdater.save_config at
instant `now`: stamp last_updated with the current time and force
version "2.0", serialize, enter the _atomic_write context manager with
an empty body, return True on success; any exception is caught and
False is returned instead. -/
def save_config (fault : SaveFault) (config : Config) (now : ℚ)
    (f : FileState Config) : Bool × FileState Config :=
  match fault with
  | .serialize_fail => (false, f)
  | .write wf =>
      let config' := { config with last_updated := some (isoformat now),
                                   version := "2.0" }
      let r := atomic_write_enter { fault := wf, content := config' } f
      (r.1, r.2)

/-- load_current_config models
AdvancedAPIEndpointUpdater.load_current_config: return the parsed file
content when the file exists (and parses), else the default config. -/
def load_current_config (f : FileState Config) : Config :=
  f.content.getD default_config

/-- save_cache models AdvancedAPIEndpointUpdater._save_cache at instant
`now`. The source builds cache_data and then calls
self._atomic_write(self.cache_file, json.dumps(cache_data)) WITHOUT a
with-statement: calling a contextlib.contextmanager function only
constructs the generator-backed context manager, and the wrapped body
(temporary-file write and rename) runs solely on entry, which never
occurs here. Hence no exception reaches the except-clause and the file
system is left exactly as it was. -/
def save_cache (σ : UpdaterState) (now : ℚ) (f : FileState CacheDoc) :
    FileState CacheDoc :=
  let cache_data : CacheDoc :=
    { endpoint_cache := σ.endpoint_cache
      content_hashes := σ.content_hashes
      last_updated := isoformat now }
  let _cm : PendingWrite CacheDoc := { fault := .ok, content := cache_data }
  f

/-! ## Strict payload validator (_strict_validate_match_data,
api_updater.py lines 531-652)

Python-semantics helpers used by the loop body. -/

/-- py_get models `item.get(key, default)` on a JSON object's fields. -/
def py_get (kvs : List (String × Json)) (k : String) (d : Json) : Json :=
  (alookup kvs k).getD d

/-- py_or models the Python expression `a or b` on JSON values: `a`
when truthy, else `b`. -/
def py_or (a b : Json) : Json := if truthy a then a else b

/-- py_str models str(x) as used inside the validator's f-string
diagnostics; container renderings are abbreviated since only the
presence of a message matters. -/
def py_str : Json → String
  | .null => "None"
  | .bool b => if b then "True" else "False"
  | .num q => toString q
  | .str s => s
  | .arr _ => "[...]"
  | .obj _ => "dict"

/-- digits_nat folds a list of decimal digit characters into a
natural number. -/
def digits_nat (cs : List Char) : ℕ :=
  cs.foldl (fun n c => n * 10 + (c.toNat - 48)) 0

/-- parse_unsigned parses an unsigned Python float literal of the
decimal forms "123", "12.", ".5", "1.25"; anything else fails. -/
def parse_unsigned (s : String) : Option ℚ :=
  match s.splitOn "." with
  | [a] =>
      if !a.toList.isEmpty && a.toList.all (fun c => c.isDigit)
      then some (digits_nat a.toList) else none
  | [a, b] =>
      if (a.toList.all (fun c => c.isDigit)) &&
         (b.toList.all (fun c => c.isDigit)) &&
         !(a.toList.isEmpty && b.toList.isEmpty)
      then some ((digits_nat a.toList : ℚ) +
                 (digits_nat b.toList : ℚ) / (10 : ℚ) ^ b.length)
      else none
  | _ => none

/-- py_float_of_string models float(s) on strings: optional surrounding
whitespace, optional sign, then a decimal literal. Exponent notation,
"inf" and "nan" are outside the model. -/
def py_float_of_string (s : String) : Option ℚ :=
  let t := s.trim
  if t.startsWith "-" then (parse_unsigned (t.drop 1)).map (fun q => -q)
  else if t.startsWith "+" then parse_unsigned (t.drop 1)
  else parse_unsigned t

/-- py_float models float(x) on the JSON values that can reach the
conversion in the validator (only truthy values do): numbers and bools
convert, strings parse or raise ValueError, lists/dicts raise
TypeError. A none result is the raised exception. -/
def py_float : Json → Option ℚ
  | .num q => some q
  | .bool b => some (if b then 1 else 0)
  | .str s => py_float_of_string s
  | _ => none

/-- from_timestamp_ms models datetime.fromtimestamp(start_time / 1000)
producing an instant on the rational time scale: numbers (and bools)
divide by 1000, any other operand raises TypeError (a none result).
Range errors of fromtimestamp on extreme numeric inputs are outside the
model. -/
def from_timestamp_ms : Json → Option ℚ
  | .num q => some (q / 1000)
  | .bool b => some ((if b then 1 else 0) / 1000)
  | _ => none

/-- starts_with_chars decides whether the first list begins with the
second. -/
def starts_with_chars : List Char → List Char → Bool
  | _, [] => true
  | [], _ :: _ => false
  | c :: cs, p :: ps => c == p && starts_with_chars cs ps

/-- contains_chars decides whether the second list occurs as a
contiguous run inside the first. -/
def contains_chars : List Char → List Char → Bool
  | [], pat => pat.isEmpty
  | c :: rest, pat =>
      starts_with_chars (c :: rest) pat || contains_chars rest pat

/-- contains_sub models the Python substring test `pat in s`. -/
def contains_sub (s pat : String) : Bool :=
  contains_chars s.toList pat.toList

/-- str_lower models str.lower(); ASCII case folding via
Char.toLower. -/
def str_lower (s : String) : String :=
  String.mk (s.toList.map Char.toLower)

/-- teams_text renders the "{homeTeam} vs {awayTeam}" fragment used by
several warning messages. -/
def teams_text (kvs : List (String × Json)) : String :=
  py_str (py_get kvs "homeTeam" (.str "")) ++ " vs " ++
    py_str (py_get kvs "awayTeam" (.str ""))

/-- VAcc is the loop state of the validator: the errors, warnings,
valid_matches and total_matches accumulators. -/
structure VAcc where
  errors : List String := []
  warnings : List String := []
  valid_matches : ℕ := 0
  total_matches : ℕ := 0
deriving DecidableEq

/-- Verdict mirrors the result dict of _strict_validate_match_data. -/
structure Verdict where
  is_valid : Bool
  errors : List String
  warnings : List String
  valid_matches : ℕ
  total_matches : ℕ
deriving DecidableEq

/-- extract_items models the shape-normalization step (lines 540-559):
produce the Python value bound to `items`, or the "不支持的数据格式"
hard error for a top-level value that is neither dict nor list. -/
def extract_items : Json → Except String Json
  | .obj kvs =>
      match alookup kvs "data" with
      | some ds =>
          match ds with
          | .obj dkvs => .ok (py_get dkvs "items" (.arr []))
          | .arr xs => .ok (.arr xs)
          | _ => .ok (if truthy ds then .arr [ds] else .arr [])
      | none =>
          match alookup kvs "items" with
          | some items => .ok items
          | none => .ok (.arr [.obj kvs])
  | .arr xs => .ok (.arr xs)
  | j => .error ("不支持的数据格式：" ++ type_name j)

/-- iterate_items models `for item in items` on a truthy items value:
lists yield their elements, strings their characters, dicts their keys;
numbers and booleans raise TypeError (the error case, which the outer
except-clause of the validator turns into a hard error). -/
def iterate_items : Json → Except String (List Json)
  | .arr xs => .ok xs
  | .str s => .ok (s.toList.map (fun c => .str (String.mk [c])))
  | .obj kvs => .ok (kvs.map (fun kv => .str kv.1))
  | j => .error (type_name j ++ " object is not iterable")

/-- check_odds models steps 3 and 4 of the loop body (lines 592-625):
odds sub-object shape, 1X2 alias extraction, completeness, numeric
conversion, plausibility, team-name completeness, and finally the
valid_matches increment for surviving items. -/
def check_odds (kvs : List (String × Json)) (acc : VAcc) : VAcc :=
  match py_get kvs "odds" (.obj []) with
  | .obj okvs =>
      let odds_1 := py_or (py_get okvs "1" .null) (py_get okvs "home" .null)
      let odds_x := py_or (py_get okvs "X" .null) (py_get okvs "draw" .null)
      let odds_2 := py_or (py_get okvs "2" .null) (py_get okvs "away" .null)
      if !(truthy odds_1 && truthy odds_x && truthy odds_2) then
        { acc with warnings := acc.warnings ++ ["赔率不完整：" ++ teams_text kvs] }
      else
        match py_float odds_1, py_float odds_x, py_float odds_2 with
        | some v1, some vx, some v2 =>
            if !(decide ((1 : ℚ) < v1) && decide ((1 : ℚ) < vx) &&
                 decide ((1 : ℚ) < v2)) then
              { acc with warnings := acc.warnings ++
                  ["赔率异常：" ++ toString v1 ++ ", " ++ toString vx ++
                   ", " ++ toString v2] }
            else if !(truthy (py_get kvs "homeTeam" .null) &&
                      truthy (py_get kvs "awayTeam" .null)) then
              { acc with warnings := acc.warnings ++ ["缺少队伍信息"] }
            else
              { acc with valid_matches := acc.valid_matches + 1 }
        | _, _, _ =>
            { acc with errors := acc.errors ++
                ["赔率格式错误：" ++ py_str odds_1 ++ ", " ++ py_str odds_x ++
                 ", " ++ py_str odds_2] }
  | odds =>
      { acc with warnings := acc.warnings ++
          ["赔率数据格式错误：" ++ type_name odds] }

/-- check_item_rest models step 2 of the loop body (lines 581-590), the
start-time filter, and then hands over to check_odds: a truthy
startTime that converts to an instant before the validation time skips
the item with a warning; a conversion failure records a hard error and
skips (the inner bare except catches it, so the loop continues). -/
def check_item_rest (now : ℚ) (kvs : List (String × Json)) (acc : VAcc) :
    VAcc :=
  let start_time := py_get kvs "startTime" (.num 0)
  if truthy start_time then
    match from_timestamp_ms start_time with
    | some match_time =>
        if match_time < now then
          { acc with warnings := acc.warnings ++
              ["发现历史比赛：" ++ teams_text kvs] }
        else check_odds kvs acc
    | none =>
        { acc with errors := acc.errors ++
            ["无效的比赛时间：" ++ py_str start_time] }
  else check_odds kvs acc

/-- validate_loop models the per-item loop (lines 567-625). The
Except error case is an exception escaping the loop body to the outer
except-clause of the validator: accessing .lower() on a non-string
sportInfo value raises AttributeError. A non-soccer/football sport
label skips the item silently (continue with no warning). -/
def validate_loop (now : ℚ) : List Json → VAcc → Except (VAcc × String) VAcc
  | [], acc => .ok acc
  | item :: rest, acc =>
      let acc1 := { acc with total_matches := acc.total_matches + 1 }
      match item with
      | .obj kvs =>
          match py_get kvs "sportInfo" (.str "") with
          | .str sport_raw =>
              let sport_info := str_lower sport_raw
              if !contains_sub sport_info "soccer" &&
                 !contains_sub sport_info "football"
              then validate_loop now rest acc1
              else validate_loop now rest (check_item_rest now kvs acc1)
          | j =>
              .error (acc1, "AttributeError: " ++ type_name j ++
                " object has no attribute lower")
      | _ =>
          validate_loop now rest
            { acc1 with warnings := acc1.warnings ++
                ["跳过非字典类型数据：" ++ type_name item] }

/-- strict_validate_match_data models
AdvancedAPIEndpointUpdater._strict_validate_match_data with the
validation instant `now` (datetime.now() captured once before the
loop). Any exception escaping the loop reaches the outer except-clause,
which appends a hard error and reports valid_matches as 0 while keeping
the warnings and total counted so far. -/
def strict_validate_match_data (data : Json) (now : ℚ) : Verdict :=
  match extract_items data with
  | .error msg =>
      { is_valid := false, errors := [msg], warnings := []
        valid_matches := 0, total_matches := 0 }
  | .ok items_j =>
      if !truthy items_j then
        { is_valid := false, errors := ["数据为空：没有比赛项目"]
          warnings := [], valid_matches := 0, total_matches := 0 }
      else
        match iterate_items items_j with
        | .error msg =>
            { is_valid := false, errors := ["数据校验异常：" ++ msg]
              warnings := [], valid_matches := 0, total_matches := 0 }
        | .ok items =>
            match validate_loop now items {} with
            | .error (acc, msg) =>
                { is_valid := false
                  errors := acc.errors ++ ["数据校验异常：" ++ msg]
                  warnings := acc.warnings
                  valid_matches := 0
                  total_matches := acc.total_matches }
            | .ok acc =>
                { is_valid := decide (0 < acc.valid_matches) &&
                    acc.errors.isEmpty
                  errors := if acc.valid_matches = 0 then
                      acc.errors ++ ["没有找到有效的足球比赛数据"]
                    else acc.errors
                  warnings := acc.warnings
                  valid_matches := acc.valid_matches
                  total_matches := acc.total_matches }

/-! ## Side probe, conditional GET and test_endpoint
(api_updater.py lines 332-529)

The HTTP network is an environment value: what the upstream answers to
the HEAD probe and to the (conditional) GET of the endpoint under test.
An Except error is a raised transport exception. -/

/-- HeadResp is the upstream's answer to the HEAD probe: the three
version-marker headers and the status code. -/
structure HeadResp where
  etag : Option String := none
  last_modified : Option String := none
  content_length : Option String := none
  status_code : ℕ
  response_time : ℚ := 0
deriving DecidableEq

/-- GetResp is the upstream's answer to the conditional GET: the raw
body (content), its JSON decoding if any (none = json.JSONDecodeError),
and response headers. -/
structure GetResp where
  status_code : ℕ
  content : String := ""
  body_json : Option Json := none
  content_type : String := ""
  etag : Option String := none
  last_modified : Option String := none
  response_time : ℚ := 0

/-- HttpEnv fixes the upstream's behaviour for one test_endpoint call:
the HEAD answer and the GET answer. -/
structure HttpEnv where
  head : Except String HeadResp
  get : Except String GetResp

/-- ProbeResult mirrors the dataclass of the same name. -/
structure ProbeResult where
  endpoint : String
  has_changes : Bool
  etag : Option String := none
  last_modified : Option String := none
  content_hash : Option String := none
  status_code : ℕ := 0
  response_time : ℚ := 0
  error : Option String := none
deriving DecidableEq

/-- probe_fingerprint is the version hash computed by _side_probe: the
MD5 of the f-string "{etag}:{last_modified}:{content_length}:{status}"
(absent headers print as "None"). -/
def probe_fingerprint (r : HeadResp) : String :=
  md5 (opt_repr r.etag ++ ":" ++ opt_repr r.last_modified ++ ":" ++
       opt_repr r.content_length ++ ":" ++ toString r.status_code)

/-- side_probe models AdvancedAPIEndpointUpdater._side_probe at instant
`now`. On a successful HEAD it compares the fingerprint against
self.content_hashes.get(endpoint) — while storing the new fingerprint
into self.endpoint_cache[endpoint]["content_hash"], a different dict —
and stamps last_probe. On any exception it returns has_changes = true
with the error and leaves the state untouched. -/
def side_probe (σ : UpdaterState) (head : Except String HeadResp)
    (endpoint : String) (now : ℚ) : ProbeResult × UpdaterState :=
  match head with
  | .ok r =>
      let content_hash := probe_fingerprint r
      let cached_hash := alookup σ.content_hashes endpoint
      let has_changed := decide (cached_hash ≠ some content_hash)
      let entry := (alookup σ.endpoint_cache endpoint).getD {}
      let entry' := { entry with content_hash := some content_hash,
                                 last_probe := some (isoformat now) }
      ({ endpoint := endpoint
         has_changes := has_changed
         etag := r.etag
         last_modified := r.last_modified
         content_hash := some content_hash
         status_code := r.status_code
         response_time := r.response_time },
       { σ with endpoint_cache := aset σ.endpoint_cache endpoint entry' })
  | .error e =>
      ({ endpoint := endpoint
         has_changes := true
         content_hash := some ""
         status_code := 0
         response_time := 0
         error := some e }, σ)

/-- conditional_get models _conditional_get invoked with a probe
result, as test_endpoint does: conditional headers are built from the
probe's ETag/Last-Modified (their effect on the upstream is already
folded into the environment's GET answer); on a 200 the endpoint-state
cache records the new ETag/Last-Modified/last_fetch; a transport
exception propagates to the caller. -/
def conditional_get (σ : UpdaterState) (get_r : Except String GetResp)
    (endpoint : String) (now : ℚ) :
    Except String (GetResp × UpdaterState) :=
  match get_r with
  | .error e => .error e
  | .ok resp =>
      if resp.status_code = 200 then
        let entry := (alookup σ.endpoint_cache endpoint).getD {}
        let entry' := { entry with etag := resp.etag,
                                   last_modified := resp.last_modified,
                                   last_fetch := some (isoformat now) }
        .ok (resp, { σ with endpoint_cache :=
                       (aset σ.endpoint_cache endpoint entry') })
      else .ok (resp, σ)

/-- updater_breaker_cfg is the breaker configuration constructed in
AdvancedAPIEndpointUpdater.__init__: CircuitBreaker(failure_threshold=5,
recovery_timeout=300) with the default success_threshold=3. -/
def updater_breaker_cfg : BreakerConfig :=
  { failure_threshold := 5, recovery_timeout := 300, success_threshold := 3 }

/-- updater_rate_max and updater_rate_window are the
RateLimiter(max_requests=20, time_window=60) parameters from
__init__. -/
def updater_rate_max : ℕ := 20

/-- See updater_rate_max. -/
def updater_rate_window : ℚ := 60

/-- keys_text models `list(data.keys()) if isinstance(data, dict) else
type(data).__name__` rendered into the data_structure field. -/
def keys_text : Json → String
  | .obj kvs => String.intercalate "," (kvs.map (fun kv => kv.1))
  | j => type_name j

/-- test_endpoint models AdvancedAPIEndpointUpdater.test_endpoint at
instant `now`: gate on the shared circuit breaker and rate limiter
(each denial returns an unavailable result tagged with its reason and
makes no network call), probe, return the cached test result tagged
from_cache when the probe reports no change, otherwise conditional GET
followed by strict validation on 200 (or the hardcoded
assume-previously-validated verdict on 304), cache the result, and
record breaker success/failure from availability. A transport exception
records a breaker failure and returns an unavailable result carrying
the error. The source message for rate-limit denials embeds the
formatted wait time, elided here. -/
def test_endpoint (σ : UpdaterState) (env : HttpEnv) (endpoint : String)
    (now : ℚ) : TestResult × UpdaterState :=
  let ce := can_execute updater_breaker_cfg σ.breaker now
  let σ1 := { σ with breaker := ce.2 }
  if !ce.1 then
    ({ endpoint := endpoint, status_code := 0, available := false
       error := some "Circuit breaker is open", test_time := now }, σ1)
  else
    let rl := can_proceed updater_rate_max updater_rate_window now σ1.limiter
    let σ2 := { σ1 with limiter := rl.2 }
    if !rl.1 then
      ({ endpoint := endpoint, status_code := 0, available := false
         error := some "Rate limited", test_time := now }, σ2)
    else
      let ps := side_probe σ2 env.head endpoint now
      let pr := ps.1
      let σ3 := ps.2
      let shortcut : Option TestResult :=
        if !pr.has_changes then
          match alookup σ3.endpoint_cache endpoint with
          | some entry => entry.test_result
          | none => none
        else none
      match shortcut with
      | some cached =>
          let cached' := { cached with from_cache := some true }
          let entry := (alookup σ3.endpoint_cache endpoint).getD {}
          (cached',
           { σ3 with endpoint_cache := (aset σ3.endpoint_cache endpoint
               { entry with test_result := some cached' }) })
      | none =>
          match conditional_get σ3 env.get endpoint now with
          | .error e =>
              ({ endpoint := endpoint, status_code := 0, available := false
                 error := some e, test_time := now
                 validation_passed := some false },
               { σ3 with breaker :=
                   record_failure updater_breaker_cfg σ3.breaker now })
          | .ok (resp, σ4) =>
              let base : TestResult :=
                { endpoint := endpoint
                  status_code := resp.status_code
                  available := (resp.status_code == 200) ||
                               (resp.status_code == 304)
                  response_size := some (if resp.status_code = 200
                    then resp.content.length else 0)
                  content_type := some resp.content_type
                  test_time := now
                  response_time := some resp.response_time
                  from_cache := some false
                  probe_has_changes := some pr.has_changes
                  probe_content_hash := pr.content_hash }
              let step : TestResult × Bool :=
                if resp.status_code = 200 then
                  match resp.body_json with
                  | some data =>
                      let v := strict_validate_match_data data now
                      ({ base with
                          data_structure := some (keys_text data)
                          contains_soccer := some (decide (0 < v.valid_matches))
                          soccer_matches := some v.valid_matches
                          total_items := some v.total_matches
                          validation_passed := some v.is_valid
                          validation_errors := some v.errors
                          validation_warnings := some v.warnings
                          content_hash := some (md5 resp.content) }, true)
                  | none =>
                      ({ base with
                          data_structure := some "non-json"
                          contains_soccer := some false
                          validation_passed := some false }, false)
                else if resp.status_code = 304 then
                  ({ base with
                      data_structure := some "not_modified"
                      contains_soccer := some true
                      validation_passed := some true }, false)
                else (base, false)
              let result := step.1
              let σ5 := if step.2 then
                  { σ4 with content_hashes :=
                      (aset σ4.content_hashes endpoint (md5 resp.content)) }
                else σ4
              let entry := (alookup σ5.endpoint_cache endpoint).getD {}
              let σ6 := { σ5 with endpoint_cache :=
                  (aset σ5.endpoint_cache endpoint
                    { entry with test_result := some result }) }
              let σ7 := if result.available then
                  { σ6 with breaker :=
                      (record_success updater_breaker_cfg σ6.breaker now) }
                else
                  { σ6 with breaker :=
                      (record_failure updater_breaker_cfg σ6.breaker now) }
              (result, σ7)

/-- breaker_inv is the reachability invariant of the circuit breaker:
whenever the breaker is Open or HalfOpen, the failure threshold has
been met and a last failure instant is recorded. -/
def breaker_inv (cfg : BreakerConfig) (st : CircuitBreakerStats) : Prop :=
  st.state = .OPEN ∨ st.state = .HALF_OPEN →
    cfg.failure_threshold ≤ st.failure_count ∧ st.last_failure_time ≠ none

/-- c7_url is a concrete endpoint URL used by the 304-branch
scenarios. -/
def c7_url : String := "https://bc.game/api/lives"

/-- c7_prior is a cached TestResult whose validation verdict is a
failure (validation_passed = false, contains_soccer = false). -/
def c7_prior : TestResult :=
  { endpoint := c7_url
    status_code := 200
    available := true
    test_time := 0
    validation_passed := some false
    contains_soccer := some false
    from_cache := some false }

/-- c7_state is an updater state holding c7_prior as the cached test
result for c7_url, with empty content_hashes (so the next probe reports
a change and the cached result is not short-circuited). -/
def c7_state : UpdaterState :=
  { endpoint_cache := [(c7_url, { test_result := some c7_prior })] }

/-- c7_env is an upstream that answers the HEAD probe with 200 and the
conditional GET with 304 Not Modified. -/
def c7_env : HttpEnv :=
  { head := .ok { status_code := 200 }, get := .ok { status_code := 304 } }

/-! ## Theorems -/

theorem breaker_inv_init (cfg : BreakerConfig) : breaker_inv cfg init_stats := by
  rintro (h | h) <;> simp [init_stats] at h

theorem breaker_inv_can_execute (cfg : BreakerConfig)
    (st : CircuitBreakerStats) (t : ℚ) (hinv : breaker_inv cfg st) :
    breaker_inv cfg (can_execute cfg st t).2 := by
  unfold can_execute
  cases hs : st.state with
  | CLOSED => simpa using hinv
  | HALF_OPEN => simpa using hinv
  | OPEN =>
      cases hl : st.last_failure_time with
      | none => simpa using hinv
      | some lft =>
          by_cases hc : cfg.recovery_timeout < t - lft
          · simp only [hc, if_true]
            intro _
            have := hinv (Or.inl hs)
            simpa [hl] using this
          · simpa [hc] using hinv

theorem breaker_inv_record_success (cfg : BreakerConfig)
    (st : CircuitBreakerStats) (t : ℚ) (hinv : breaker_inv cfg st) :
    breaker_inv cfg (record_success cfg st t) := by
  unfold record_success
  by_cases hc : st.state = CircuitState.HALF_OPEN ∧
      cfg.success_threshold ≤ st.success_count + 1
  · simp only [hc, if_pos]
    rintro (h | h) <;> simp at h
  · simp only [if_neg hc]
    intro h
    have := hinv (by simpa using h)
    simpa using this

theorem breaker_inv_record_failure (cfg : BreakerConfig)
    (st : CircuitBreakerStats) (t : ℚ) (hinv : breaker_inv cfg st) :
    breaker_inv cfg (record_failure cfg st t) := by
  unfold record_failure
  by_cases hc : (st.state = CircuitState.CLOSED ∨
      st.state = CircuitState.HALF_OPEN) ∧
      cfg.failure_threshold ≤ st.failure_count + 1
  · simp only [hc, if_pos]
    intro _
    exact ⟨hc.2, by simp⟩
  · simp only [if_neg hc]
    intro h
    have h' := hinv (by simpa using h)
    exact ⟨Nat.le_succ_of_le h'.1, by simp⟩

theorem breaker_inv_run_ops (cfg : BreakerConfig) (ops : List BreakerOp)
    (st : CircuitBreakerStats) (hinv : breaker_inv cfg st) :
    breaker_inv cfg (run_ops cfg st ops) := by
  induction ops generalizing st with
  | nil => simpa [run_ops] using hinv
  | cons op rest ih =>
      have hstep : breaker_inv cfg (apply_op cfg st op) := by
        cases op with
        | canExec t => exact breaker_inv_can_execute cfg st t hinv
        | recSucc t => exact breaker_inv_record_success cfg st t hinv
        | recFail t => exact breaker_inv_record_failure cfg st t hinv
      simpa [run_ops] using ih (apply_op cfg st op) hstep

/-- C5: in every breaker state reachable from a fresh breaker by an
arbitrary sequence of can_execute / record_success / record_failure
calls, if the state is HalfOpen then one record_failure call
transitions the state to Open. Confirmed: the reachability invariant
guarantees failure_count already meets the threshold while HalfOpen. -/
theorem halfopen_single_failure_opens (cfg : BreakerConfig)
    (ops : List BreakerOp) (t : ℚ)
    (h : (run_ops cfg init_stats ops).state = .HALF_OPEN) :
    (record_failure cfg (run_ops cfg init_stats ops) t).state = .OPEN := by
  have hinv := breaker_inv_run_ops cfg ops init_stats (breaker_inv_init cfg)
  have hth := (hinv (Or.inr h)).1
  unfold record_failure
  rw [if_pos ⟨Or.inr (by simpa using h), Nat.le_succ_of_le hth⟩]

/-- Witness for C5: with thresholds (2, 1, 3), two failures at 0 open
the breaker and a can_execute at 2 half-opens it; a single
record_failure then opens it again. -/
theorem halfopen_single_failure_opens_witness :
    (run_ops ⟨2, 1, 3⟩ init_stats
        [.recFail 0, .recFail 0, .canExec 2]).state = .HALF_OPEN ∧
    (record_failure ⟨2, 1, 3⟩
        (run_ops ⟨2, 1, 3⟩ init_stats [.recFail 0, .recFail 0, .canExec 2])
        3).state = .OPEN :=
  ⟨by norm_num [run_ops, apply_op, record_failure, can_execute, init_stats],
   halfopen_single_failure_opens ⟨2, 1, 3⟩
      [.recFail 0, .recFail 0, .canExec 2] 3
      (by norm_num [run_ops, apply_op, record_failure, can_execute,
        init_stats])⟩

/-- C6: in every reachable Open breaker state a last failure instant is
recorded; can_execute returns False (leaving the state untouched) while
at most recovery_timeout seconds have elapsed since it, and returns
True transitioning to HalfOpen with success_count reset to 0 as soon as
strictly more than recovery_timeout seconds have elapsed. Confirmed. -/
theorem open_waits_out_recovery_timeout (cfg : BreakerConfig)
    (ops : List BreakerOp) (t : ℚ)
    (h : (run_ops cfg init_stats ops).state = .OPEN) :
    (run_ops cfg init_stats ops).last_failure_time ≠ none ∧
    ∀ lft, (run_ops cfg init_stats ops).last_failure_time = some lft →
      (t - lft ≤ cfg.recovery_timeout →
        can_execute cfg (run_ops cfg init_stats ops) t =
          (false, run_ops cfg init_stats ops)) ∧
      (cfg.recovery_timeout < t - lft →
        can_execute cfg (run_ops cfg init_stats ops) t =
          (true, { run_ops cfg init_stats ops with
                     state := .HALF_OPEN, success_count := 0 })) := by
  have hinv := breaker_inv_run_ops cfg ops init_stats (breaker_inv_init cfg)
  refine ⟨(hinv (Or.inl h)).2, ?_⟩
  intro lft hl
  constructor
  · intro hle
    unfold can_execute
    rw [h, hl]
    simp [not_lt.mpr hle]
  · intro hlt
    unfold can_execute
    rw [h, hl]
    simp only [hlt, if_true]
    rw [hl]

/-- Witness for C6: one failure at instant 0 with threshold 1 opens the
breaker; at instant 100 (past the 10-second recovery timeout) the next
can_execute admits and half-opens. -/
theorem open_waits_out_recovery_timeout_witness :
    (run_ops ⟨1, 10, 1⟩ init_stats [.recFail 0]).state = .OPEN ∧
    can_execute ⟨1, 10, 1⟩ (run_ops ⟨1, 10, 1⟩ init_stats [.recFail 0]) 100 =
      (true, { run_ops ⟨1, 10, 1⟩ init_stats [.recFail 0] with
                 state := .HALF_OPEN, success_count := 0 }) :=
  ⟨by norm_num [run_ops, apply_op, record_failure, init_stats],
   ((open_waits_out_recovery_timeout ⟨1, 10, 1⟩ [.recFail 0] 100
       (by norm_num [run_ops, apply_op, record_failure, init_stats])).2 0
       (by norm_num [run_ops, apply_op, record_failure, init_stats])).2
       (by norm_num)⟩

/-- C1 (evaluation of the defect): _save_cache builds the cache
document and calls the contextmanager-decorated _atomic_write without a
with-statement, so the write body never runs: for every state and every
instant the file system is returned unchanged, and in particular after
a call on a state with a non-empty endpoint_cache and content_hashes
the cache file still does not exist. The claim that the cache file
afterwards contains the current endpoint_cache and content_hashes maps
is therefore false on the code. -/
theorem save_cache_never_writes :
    (∀ (σ : UpdaterState) (now : ℚ) (f : FileState CacheDoc),
        save_cache σ now f = f) ∧
    (save_cache
        { endpoint_cache :=
            [("https://bc.game/api/lives", { content_hash := some "h" })]
          content_hashes := [("https://bc.game/api/lives", "h")] }
        0 { content := none, temp_exists := false }).content = none :=
  ⟨fun _ _ _ => rfl, rfl⟩

/-- C3: whenever save_config fails at any step (serialization,
temporary-file creation, writing, or rename), it returns False rather
than raising, the target file content is exactly what it was before the
call, and no temporary file is left behind. Confirmed. -/
theorem save_config_failure_leaves_target (fault : SaveFault)
    (cfg : Config) (now : ℚ) (f : FileState Config)
    (hfault : fault ≠ SaveFault.write WriteFault.ok)
    (htemp : f.temp_exists = false) :
    (save_config fault cfg now f).1 = false ∧
    (save_config fault cfg now f).2.content = f.content ∧
    (save_config fault cfg now f).2.temp_exists = false := by
  cases fault with
  | serialize_fail => exact ⟨rfl, rfl, htemp⟩
  | write wf =>
      cases wf with
      | ok => exact absurd rfl hfault
      | temp_create_fail => exact ⟨rfl, rfl, htemp⟩
      | write_fail => exact ⟨rfl, rfl, rfl⟩
      | rename_fail => exact ⟨rfl, rfl, rfl⟩

/-- Witness for C3: a write failure over an existing config file
returns False and leaves the file content intact with no orphan
temporary file. -/
theorem save_config_failure_leaves_target_witness :
    SaveFault.write WriteFault.write_fail ≠ SaveFault.write WriteFault.ok ∧
    ((save_config (SaveFault.write WriteFault.write_fail) default_config 0
        { content := some default_config, temp_exists := false }).1 = false ∧
      (save_config (SaveFault.write WriteFault.write_fail) default_config 0
        { content := some default_config, temp_exists := false }).2.content =
          some default_config ∧
      (save_config (SaveFault.write WriteFault.write_fail) default_config 0
        { content := some default_config,
          temp_exists := false }).2.temp_exists = false) :=
  ⟨by decide,
   save_config_failure_leaves_target (SaveFault.write WriteFault.write_fail)
     default_config 0 { content := some default_config, temp_exists := false }
     (by decide) rfl⟩

/-- C9 (counterexample): saving a config whose version is "1.0" and
loading it back does not return the original config: save_config
overwrites last_updated with the save instant and forces version to
"2.0" before writing, so the round-trip is not the identity. -/
theorem save_load_roundtrip_cex :
    load_current_config
        (save_config (SaveFault.write WriteFault.ok)
          { default_config with version := "1.0" } 0
          { content := none, temp_exists := false }).2 ≠
      { default_config with version := "1.0" } := by
  intro h
  exact absurd (congrArg Config.version h) (by decide)

/-- C9 (amended): a successful save followed by a load returns the
saved config with exactly two fields rewritten by save_config itself:
last_updated becomes the save instant and version becomes "2.0"; all
other fields are preserved. -/
theorem save_load_roundtrip_amended (cfg : Config) (now : ℚ)
    (f : FileState Config) :
    (save_config (SaveFault.write WriteFault.ok) cfg now f).1 = true ∧
    load_current_config
        (save_config (SaveFault.write WriteFault.ok) cfg now f).2 =
      { cfg with last_updated := some (isoformat now), version := "2.0" } :=
  ⟨rfl, rfl⟩

/-- C2 (evaluation of the defect): _side_probe never updates
self.content_hashes (only test_endpoint's 200 branch does, with a body
hash), yet compares its header fingerprint against that dict; so two
consecutive successful probes of the same URL with identical ETag,
Last-Modified, Content-Length and status still report has_changes =
true on the second probe, contradicting the claim that the second
probe reports has_changes = false. -/
theorem side_probe_compares_wrong_cache :
    (∀ (σ : UpdaterState) (h : Except String HeadResp) (u : String) (t : ℚ),
        (side_probe σ h u t).2.content_hashes = σ.content_hashes) ∧
    (side_probe
        (side_probe {}
          (Except.ok { etag := some "abc", last_modified := some "Mon",
                       content_length := some "120", status_code := 200 })
          "https://bc.game/api/lives" 0).2
        (Except.ok { etag := some "abc", last_modified := some "Mon",
                     content_length := some "120", status_code := 200 })
        "https://bc.game/api/lives" 1).1.has_changes = true := by
  constructor
  · intro σ h u t
    cases h <;> rfl
  · rfl

theorem mem_run_limiter_fst (m : ℕ) (w : ℚ) :
    ∀ (ts s : List ℚ) (x : ℚ), x ∈ (run_limiter m w s ts).1 → x ∈ ts := by
  intro ts
  induction ts with
  | nil => intro s x hx; simp [run_limiter] at hx
  | cons t ts ih =>
      intro s x hx
      simp only [run_limiter] at hx
      rcases List.mem_append.mp hx with h1 | h2
      · by_cases hr : (can_proceed m w t s).1
        · simp only [hr, if_true, List.mem_singleton] at h1
          subst h1
          exact List.mem_cons_self x ts
        · simp [hr] at h1
      · exact List.mem_cons_of_mem t (ih _ x h2)

theorem limiter_window_bound (m : ℕ) (w T : ℚ) :
    ∀ (ts s : List ℚ), ts.Pairwise (· ≤ ·) →
      (∀ x ∈ s, ∀ t ∈ ts, x ≤ t) → s.length ≤ m →
      (s.filter (in_window w T)).length +
        ((run_limiter m w s ts).1.filter (in_window w T)).length ≤ m := by
  intro ts
  induction ts with
  | nil =>
      intro s _ _ hlen
      simp only [run_limiter, List.filter_nil, List.length_nil, Nat.add_zero]
      exact le_trans (List.length_filter_le _ s) hlen
  | cons t ts ih =>
      intro s hpair hbound hlen
      have hpair' := List.pairwise_cons.mp hpair
      by_cases hT : t ≤ T
      · have hE : List.filter (in_window w T) (prune w t s) =
            List.filter (in_window w T) s := by
          unfold prune
          rw [List.filter_filter]
          apply List.filter_congr
          intro a _
          by_cases hwa : in_window w T a = true
          · have h1 : T - a < w ∧ a ≤ T := by
              unfold in_window at hwa
              simpa using hwa
            have h2 : t - a < w :=
              lt_of_le_of_lt (by linarith [h1.2] : t - a ≤ T - a) h1.1
            simp [hwa, h2]
          · simp [Bool.eq_false_iff.mpr hwa]
        simp only [run_limiter]
        by_cases hlen2 : (prune w t s).length < m
        · have hcp1 : (can_proceed m w t s).1 = true := by
            simp [can_proceed, hlen2]
          have hcp2 : (can_proceed m w t s).2 = prune w t s ++ [t] := by
            simp [can_proceed, hlen2]
          rw [hcp1, hcp2]
          have hB : ∀ x ∈ prune w t s ++ [t], ∀ u ∈ ts, x ≤ u := by
            intro x hx u hu
            rcases List.mem_append.mp hx with hx1 | hx2
            · exact hbound x (List.mem_of_mem_filter hx1) u
                (List.mem_cons_of_mem t hu)
            · rw [List.mem_singleton] at hx2
              subst hx2
              exact hpair'.1 u hu
          have hL : (prune w t s ++ [t]).length ≤ m := by
            simp only [List.length_append, List.length_singleton]
            omega
          have IH := ih (prune w t s ++ [t]) hpair'.2 hB hL
          rw [List.filter_append, List.length_append, hE] at IH
          simp only [if_true, List.filter_append, List.length_append]
          omega
        · have hcp1 : (can_proceed m w t s).1 = false := by
            simp [can_proceed, hlen2]
          have hcp2 : (can_proceed m w t s).2 = prune w t s := by
            simp [can_proceed, hlen2]
          rw [hcp1, hcp2]
          have hB : ∀ x ∈ prune w t s, ∀ u ∈ ts, x ≤ u := by
            intro x hx u hu
            exact hbound x (List.mem_of_mem_filter hx) u
              (List.mem_cons_of_mem t hu)
          have hL : (prune w t s).length ≤ m :=
            le_trans (List.length_filter_le _ s) hlen
          have IH := ih (prune w t s) hpair'.2 hB hL
          rw [hE] at IH
          simpa using IH
      · have hgt : ∀ x ∈ t :: ts, T < x := by
          intro x hx
          rcases List.mem_cons.mp hx with rfl | hx'
          · exact not_le.mp hT
          · exact lt_of_lt_of_le (not_le.mp hT) (hpair'.1 x hx')
        have hnil : List.filter (in_window w T)
            (run_limiter m w s (t :: ts)).1 = [] := by
          rw [List.filter_eq_nil_iff]
          intro a ha
          have hat := mem_run_limiter_fst m w (t :: ts) s a ha
          have haT := hgt a hat
          unfold in_window
          simp [not_le.mpr haT]
        rw [hnil]
        simpa using le_trans (List.length_filter_le _ s) hlen

/-- C4 (amended): for every max_requests and time_window and every
NON-DECREASING sequence of call instants, at most max_requests calls
admitted by can_proceed fall inside any trailing time_window-second
interval, and a denied call records no timestamp (the request list
after a denial is exactly the pruned old list). The original claim
quantified over arbitrary call instants; it fails when the clock runs
backwards (see the counterexample), so monotone instants are required. -/
theorem rate_limiter_window (m : ℕ) (w : ℚ) (times : List ℚ)
    (hmono : times.Pairwise (· ≤ ·)) :
    (∀ T : ℚ,
      ((run_limiter m w [] times).1.filter (in_window w T)).length ≤ m) ∧
    (∀ (s : List ℚ) (now : ℚ), (can_proceed m w now s).1 = false →
      (can_proceed m w now s).2 = prune w now s) := by
  constructor
  · intro T
    have h := limiter_window_bound m w T times [] hmono
      (by intro x hx; simp at hx) (Nat.zero_le m)
    simpa using h
  · intro s now hfalse
    by_cases hp : (prune w now s).length < m
    · simp [can_proceed, hp] at hfalse
    · simp [can_proceed, hp]

/-- C4 (counterexample): with max_requests = 2 and time_window = 10 and
the non-monotone call instants 0, 1, 20, 2 every call is admitted, so
the trailing 10-second interval ending at instant 2 contains three
admitted calls (0, 1 and 2) — more than max_requests. -/
theorem rate_limiter_window_cex :
    2 < ((run_limiter 2 10 [] [0, 1, 20, 2]).1.filter
          (in_window 10 2)).length := by
  norm_num [run_limiter, can_proceed, prune, in_window, List.filter_cons]

/-- Witness for C4: the monotone instants 0, 1, 20 with max_requests =
2 and time_window = 10 keep every trailing 10-second interval (here the
one ending at instant 2) within the bound. -/
theorem rate_limiter_window_witness :
    ([(0 : ℚ), 1, 20].Pairwise (· ≤ ·)) ∧
    ((run_limiter 2 10 [] [(0 : ℚ), 1, 20]).1.filter
        (in_window 10 2)).length ≤ 2 :=
  ⟨by norm_num [List.pairwise_cons],
   (rate_limiter_window 2 10 [0, 1, 20]
      (by norm_num [List.pairwise_cons])).1 2⟩

/-- C8 (counterexample): an item whose sport label is "tennis" is
counted in total_matches and excluded from valid_matches, but the
warnings list stays empty — no warning is appended for it, contrary to
the claim. -/
theorem wrong_sport_warning_cex :
    (strict_validate_match_data
        (Json.arr [Json.obj [("sportInfo", Json.str "tennis")]]) 0).warnings
      = [] ∧
    (strict_validate_match_data
        (Json.arr [Json.obj [("sportInfo", Json.str "tennis")]])
        0).total_matches = 1 ∧
    (strict_validate_match_data
        (Json.arr [Json.obj [("sportInfo", Json.str "tennis")]])
        0).valid_matches = 0 :=
  ⟨rfl, rfl, rfl⟩

/-- C8 (amended): an item whose sport label contains neither "soccer"
nor "football" (case-insensitive) increments the total item count and
is excluded from valid_matches, and the loop state is otherwise
untouched — in particular NO warning is appended for it (the source
skips such items silently with a bare continue). -/
theorem wrong_sport_skipped_silently (now : ℚ)
    (kvs : List (String × Json)) (rest : List Json) (acc : VAcc)
    (s : String)
    (hsport : py_get kvs "sportInfo" (Json.str "") = Json.str s)
    (hns : contains_sub (str_lower s) "soccer" = false)
    (hnf : contains_sub (str_lower s) "football" = false) :
    validate_loop now (Json.obj kvs :: rest) acc =
      validate_loop now rest
        { acc with total_matches := acc.total_matches + 1 } := by
  rw [validate_loop, hsport]
  simp only [hns, hnf, Bool.not_false, Bool.and_self, if_true]

/-- Witness for C8: the single-item payload with sport label "tennis"
is processed into a bare total_matches increment. -/
theorem wrong_sport_skipped_silently_witness :
    contains_sub (str_lower "tennis") "soccer" = false ∧
    contains_sub (str_lower "tennis") "football" = false ∧
    validate_loop 0 [Json.obj [("sportInfo", Json.str "tennis")]] {} =
      validate_loop 0 []
        { errors := [], warnings := [], valid_matches := 0
          total_matches := 1 } :=
  ⟨by decide, by decide,
   wrong_sport_skipped_silently 0 [("sportInfo", Json.str "tennis")] [] {}
     "tennis" rfl (by decide) (by decide)⟩

/-- C10: on every input and every validation instant the returned
verdict satisfies is_valid = (valid_matches > 0 AND errors empty) —
stated over the errors list actually returned, including the summary
error appended when no valid item was found — and whenever is_valid is
false the errors list is non-empty. Confirmed on all paths, including
the unsupported-format, empty-items and internal-exception paths. -/
theorem verdict_is_valid_iff (data : Json) (now : ℚ) :
    ((strict_validate_match_data data now).is_valid =
      (decide (0 < (strict_validate_match_data data now).valid_matches) &&
        (strict_validate_match_data data now).errors.isEmpty)) ∧
    ((strict_validate_match_data data now).is_valid = false →
      (strict_validate_match_data data now).errors ≠ []) := by
  unfold strict_validate_match_data
  cases he : extract_items data with
  | error msg => simp
  | ok items_j =>
      by_cases ht : truthy items_j
      · simp only [ht, Bool.not_true, Bool.false_eq_true, if_false]
        cases hi : iterate_items items_j with
        | error msg => simp
        | ok items =>
            cases hv : validate_loop now items {} with
            | error p => simp [hv]
            | ok acc =>
                simp only [hv]
                constructor
                · by_cases hz : acc.valid_matches = 0
                  · simp [hz]
                  · simp [hz]
                · intro hfalse
                  by_cases hz : acc.valid_matches = 0
                  · simp [hz]
                  · have hpos : 0 < acc.valid_matches :=
                      Nat.pos_of_ne_zero hz
                    simp only [hpos, decide_eq_true_eq] at hfalse
                    simp only [hz, if_false]
                    intro hnil
                    rw [hnil] at hfalse
                    simp [hpos] at hfalse
      · simp [ht]

/-- Witness for C10: the null payload takes the unsupported-format
path; its verdict has is_valid = false and a non-empty errors list. -/
theorem verdict_is_valid_iff_witness :
    (strict_validate_match_data Json.null 0).is_valid = false ∧
    (strict_validate_match_data Json.null 0).errors ≠ [] :=
  ⟨rfl, (verdict_is_valid_iff Json.null 0).2 rfl⟩

/-- C7 (counterexample): from a state whose cached TestResult for the
URL records a validation failure, a test whose conditional GET answers
304 returns validation_passed = true — it does not equal the prior
cached verdict, contrary to the claim: the 304 branch hardcodes
validation_passed = true and contains_soccer = true ("assume previously
validated") without consulting the cache. -/
theorem not_modified_ignores_prior_verdict_cex :
    (test_endpoint c7_state c7_env c7_url 1).1.validation_passed =
      some true ∧
    c7_prior.validation_passed = some false :=
  ⟨rfl, rfl⟩

/-- C7 (amended): when the breaker and limiter admit the call, the
probe reports a change (so the cached result is not returned), and the
conditional GET answers 304, the returned TestResult is available and
unconditionally reports validation_passed = true and contains_soccer =
true, regardless of any prior cached verdict. -/
theorem not_modified_reports_valid (σ : UpdaterState) (env : HttpEnv)
    (u : String) (t : ℚ) (resp : GetResp)
    (hb : (can_execute updater_breaker_cfg σ.breaker t).1 = true)
    (hr : (can_proceed updater_rate_max updater_rate_window t
             σ.limiter).1 = true)
    (hch : ∀ r, env.head = Except.ok r →
       alookup σ.content_hashes u ≠ some (probe_fingerprint r))
    (hget : env.get = Except.ok resp)
    (hst : resp.status_code = 304) :
    (test_endpoint σ env u t).1.available = true ∧
    (test_endpoint σ env u t).1.validation_passed = some true ∧
    (test_endpoint σ env u t).1.contains_soccer = some true := by
  have hsp : ∀ (σ2 : UpdaterState), σ2.content_hashes = σ.content_hashes →
      (side_probe σ2 env.head u t).1.has_changes = true := by
    intro σ2 hσ2
    cases hh : env.head with
    | error e => simp [side_probe]
    | ok r =>
        simp only [side_probe]
        rw [hσ2]
        exact decide_eq_true (hch r hh)
  have hsp2 : (side_probe
      { endpoint_cache := σ.endpoint_cache
        content_hashes := σ.content_hashes
        breaker := (can_execute updater_breaker_cfg σ.breaker t).2
        limiter := (can_proceed updater_rate_max updater_rate_window t
          σ.limiter).2 } env.head u t).1.has_changes = true := hsp _ rfl
  simp only [test_endpoint, hb, Bool.not_true, Bool.false_eq_true,
    if_false, hr]
  rw [hsp2]
  simp only [Bool.not_true, Bool.false_eq_true, if_false]
  simp only [conditional_get, hget, hst]
  norm_num [hst]

/-- Witness for C7 (amended): a fresh updater state against an upstream
answering HEAD 200 / GET 304 yields an available result with
validation_passed = true and contains_soccer = true. -/
theorem not_modified_reports_valid_witness :
    (can_execute updater_breaker_cfg ({} : UpdaterState).breaker 0).1 =
      true ∧
    (can_proceed updater_rate_max updater_rate_window 0
        ({} : UpdaterState).limiter).1 = true ∧
    ((test_endpoint {} c7_env c7_url 0).1.available = true ∧
      (test_endpoint {} c7_env c7_url 0).1.validation_passed = some true ∧
      (test_endpoint {} c7_env c7_url 0).1.contains_soccer = some true) :=
  ⟨rfl, rfl,
   not_modified_reports_valid {} c7_env c7_url 0 { status_code := 304 }
     rfl rfl (fun r _ => by simp [alookup]) rfl rfl⟩

end Monitor
